import Mathlib

/-!
# HelloTriangle: the setup / frame-loop / teardown sequencer of `src/HelloWorld.cpp`

The program is a straight-line sequence of SDL and OpenGL calls followed by an
event-poll / draw / present loop.  It is embedded as a function from an
environment (what the external libraries return) and an event script (the batch
of events pending in each loop iteration) to the trace of external calls the
program issues, in program order, together with the way the run ends.

* values the libraries hand back (handles, status flags, info logs) are fields
  of `Env`;
* the two file-level statics `window` and `context` are threaded explicitly as
  `Globals`;
* every call to SDL, glad, OpenGL or `std::cout` appends one `Call` to the trace;
* the `while (running)` loop consumes one batch of the script per iteration and
  yields `none` when the script is exhausted while `running` is still true;
* the OpenGL functions are reached through glad's entry points, which are null
  until `gladLoadGLLoader` has succeeded: when `Init` returns without that, the
  first OpenGL call of `main` faults and the run ends there.
-/

namespace HelloTriangle

/-! ## Constants -/

/-- Screen width, `constexpr int WIDTH = 800`. -/
def WIDTH : Int := 800

/-- Screen height, `constexpr int HEIGHT = 600`. -/
def HEIGHT : Int := 600

/-- Vertex stage GLSL text, `vertexShaderSource`. -/
def vertexShaderSource : String :=
  "#version 330 core\n" ++
  "layout (location = 0) in vec3 aPos;\n" ++
  "void main()\n" ++
  "\x7b\n" ++
  "   gl_Position = vec4(aPos.x, aPos.y, aPos.z, 1.0);\n" ++
  "\x7d"

/-- Fragment stage GLSL text, `fragmentShaderSource`. -/
def fragmentShaderSource : String :=
  "#version 330 core\n" ++
  "out vec4 FragColor;\n" ++
  "void main()\n" ++
  "\x7b\n" ++
  "FragColor = vec4(1.0f, 0.5f, 0.2f, 1.0f);\n" ++
  "\x7d"

/-- Symbolic OpenGL enumerants used by the program (and the remaining members
of the face and winding enumerations, needed to describe culling). -/
inductive GLenum
  | GL_CULL_FACE
  | GL_FRONT
  | GL_BACK
  | GL_FRONT_AND_BACK
  | GL_CW
  | GL_CCW
  | GL_VERTEX_SHADER
  | GL_FRAGMENT_SHADER
  | GL_COMPILE_STATUS
  | GL_LINK_STATUS
  | GL_ARRAY_BUFFER
  | GL_STATIC_DRAW
  | GL_FLOAT
  | GL_TRIANGLES
  | GL_COLOR_BUFFER_BIT
  deriving DecidableEq, Repr

/-- The three context attributes the program sets. -/
inductive SDL_GLattr
  | SDL_GL_CONTEXT_PROFILE_MASK
  | SDL_GL_CONTEXT_MAJOR_VERSION
  | SDL_GL_CONTEXT_MINOR_VERSION
  deriving DecidableEq, Repr

/-- Value of `SDL_INIT_VIDEO` in the SDL2 headers. -/
def SDL_INIT_VIDEO : Nat := 0x20

/-- Value of `SDL_GL_CONTEXT_PROFILE_CORE` in the SDL2 headers. -/
def SDL_GL_CONTEXT_PROFILE_CORE : Int := 1

/-- Value of `SDL_WINDOWPOS_UNDEFINED` in the SDL2 headers. -/
def SDL_WINDOWPOS_UNDEFINED : Int := 0x1FFF0000

/-- Value of `SDL_WINDOW_OPENGL` in the SDL2 headers. -/
def SDL_WINDOW_OPENGL : Nat := 0x2

/-- Event type `SDL_QUIT` (SDL2 headers: `0x100`). -/
def SDL_QUIT : Nat := 0x100

/-- Event type `SDL_KEYDOWN` (SDL2 headers: `0x300`). -/
def SDL_KEYDOWN : Nat := 0x300

/-- Event type `SDL_KEYUP` (SDL2 headers: `0x301`). -/
def SDL_KEYUP : Nat := 0x301

/-- Key code `SDLK_ESCAPE` (SDL2 headers: ASCII 27). -/
def SDLK_ESCAPE : Int := 27

/-- Size of a `float` in bytes on every platform SDL and OpenGL run on
(`GLfloat` is a 32-bit IEEE value). -/
def sizeofFloat : Nat := 4

/-! ## Data model -/

/-- The part of an `SDL_Event` the program looks at: `event.type` and
`event.key.keysym.sym`. -/
structure Event where
  type : Nat
  sym : Int
  deriving DecidableEq, Repr

/-- What the external world returns to the program.  Handles are numbers, `0`
being `NULL` / the reserved name zero.  Status values are C `int`s, tested with
`!status`. -/
structure Env where
  /-- result of `SDL_CreateWindow` -/
  window : Nat
  /-- result of `SDL_GL_CreateContext` -/
  context : Nat
  /-- result of `gladLoadGLLoader` -/
  gladResult : Int
  /-- result of `glCreateShader(GL_VERTEX_SHADER)` -/
  vertexShader : Nat
  /-- `GL_COMPILE_STATUS` of the vertex shader -/
  vertexStatus : Int
  /-- info log of the vertex shader -/
  vertexLog : String
  /-- result of `glCreateShader(GL_FRAGMENT_SHADER)` -/
  fragmentShader : Nat
  /-- `GL_COMPILE_STATUS` of the fragment shader (the driver's state; the
  program never queries it) -/
  fragmentStatus : Int
  /-- result of `glCreateProgram` -/
  shaderProgram : Nat
  /-- `GL_LINK_STATUS` of the program -/
  linkStatus : Int
  /-- info log of the program -/
  linkLog : String
  /-- name written by `glGenVertexArrays` -/
  VAO : Nat
  /-- name written by `glGenBuffers` -/
  VBO : Nat

/-- The file-level statics `window` and `context`, both initially `NULL`. -/
structure Globals where
  window : Nat
  context : Nat
  deriving DecidableEq, Repr

/-- One external call, with its arguments and (last) the value it handed back
where the program uses one.  `SDL_GL_DeleteContext` and `glDetachShader` belong
to the vocabulary although the program never issues them. -/
inductive Call
  | cout (s : String)
  | endl
  | SDL_Init (flags : Nat)
  | SDL_GL_SetAttribute (attr : SDL_GLattr) (value : Int)
  | SDL_CreateWindow (title : String) (x y w h : Int) (flags : Nat) (result : Nat)
  | SDL_GL_CreateContext (window : Nat) (result : Nat)
  | gladLoadGLLoader (result : Int)
  | SDL_Quit
  | SDL_DestroyWindow (window : Nat)
  | SDL_GL_DeleteContext (context : Nat)
  | SDL_GL_SwapWindow (window : Nat)
  | SDL_PollEvent (result : Option Event)
  | glViewport (x y w h : Int)
  | glEnable (cap : GLenum)
  | glCullFace (mode : GLenum)
  | glFrontFace (mode : GLenum)
  | glCreateShader (type : GLenum) (result : Nat)
  | glShaderSource (shader : Nat) (count : Nat) (source : String)
  | glCompileShader (shader : Nat)
  | glGetShaderiv (shader : Nat) (pname : GLenum) (result : Int)
  | glGetShaderInfoLog (shader : Nat) (maxLength : Nat) (log : String)
  | glCreateProgram (result : Nat)
  | glAttachShader (program shader : Nat)
  | glDetachShader (program shader : Nat)
  | glLinkProgram (program : Nat)
  | glGetProgramiv (program : Nat) (pname : GLenum) (result : Int)
  | glGetProgramInfoLog (program : Nat) (maxLength : Nat) (log : String)
  | glUseProgram (program : Nat)
  | glDeleteShader (shader : Nat)
  | glGenVertexArrays (n : Nat) (result : Nat)
  | glBindVertexArray (array : Nat)
  | glGenBuffers (n : Nat) (result : Nat)
  | glBindBuffer (target : GLenum) (buffer : Nat)
  | glBufferData (target : GLenum) (size : Nat) (data : List ℚ) (usage : GLenum)
  | glVertexAttribPointer (index : Nat) (size : Nat) (type : GLenum)
      (normalized : Bool) (stride : Nat) (pointer : Nat)
  | glEnableVertexAttribArray (index : Nat)
  | glClearColor (r g b a : ℚ)
  | glClear (mask : GLenum)
  | glDrawArrays (mode : GLenum) (first : Nat) (count : Nat)
  | glDeleteVertexArrays (n : Nat) (array : Nat)
  | glDeleteBuffers (n : Nat) (buffer : Nat)
  | glDeleteProgram (program : Nat)

open Call GLenum SDL_GLattr

/-! ## The program -/

/-- The local array `vertices` of `main`: three vertices, three components
each.  Every literal is a dyadic rational exactly representable as a `float`. -/
def vertices : List ℚ :=
  [-1/2, -1/2, 0,
    1/2, -1/2, 0,
    0,    1/2, 0]

/-- `sizeof(vertices)`: the element count times the element size. -/
def sizeofVertices : Nat := vertices.length * sizeofFloat

/-- `void Init()`: returns the statics after the call and the calls issued. -/
def Init (env : Env) (g : Globals) : Globals × List Call :=
  let t : List Call :=
    [cout "Hello World!",
     SDL_Init SDL_INIT_VIDEO,
     SDL_GL_SetAttribute SDL_GL_CONTEXT_PROFILE_MASK SDL_GL_CONTEXT_PROFILE_CORE,
     SDL_GL_SetAttribute SDL_GL_CONTEXT_MAJOR_VERSION 3,
     SDL_GL_SetAttribute SDL_GL_CONTEXT_MINOR_VERSION 3]
  let g : Globals := { g with window := env.window }
  let t := t ++ [SDL_CreateWindow "Hello Triangle" SDL_WINDOWPOS_UNDEFINED
                  SDL_WINDOWPOS_UNDEFINED WIDTH HEIGHT SDL_WINDOW_OPENGL g.window]
  if g.window = 0 then
    (g, t ++ [cout "Failed to create SDL window", endl, SDL_Quit])
  else
    let g : Globals := { g with context := env.context }
    let t := t ++ [SDL_GL_CreateContext g.window g.context,
                   gladLoadGLLoader env.gladResult]
    if env.gladResult = 0 then
      (g, t ++ [cout "Failed to initialize GLAD", endl, SDL_Quit])
    else
      (g, t)

/-- `void Render()`. -/
def Render : List Call :=
  [glClearColor 0 0 0 0, glClear GL_COLOR_BUFFER_BIT]

/-- `void Update()`. -/
def Update (g : Globals) : List Call :=
  [SDL_GL_SwapWindow g.window]

/-- `void Quit()`. -/
def Quit (g : Globals) : List Call :=
  [cout "Goodbye World!", SDL_DestroyWindow g.window, SDL_Quit]

/-- The body of the event loop, `switch (event.type) ...`: the value of
`running` after one polled event has been dispatched. -/
def dispatch (event : Event) (running : Bool) : Bool :=
  if event.type = SDL_QUIT then false
  else if event.type = SDL_KEYDOWN then
    if event.sym = SDLK_ESCAPE then false else running
  else running

/-- The loop `while (SDL_PollEvent(&event)) ...` run on the queue of pending
events: the calls issued, the value of `running` afterwards, and the events
left in the queue.  The empty queue is the poll that returns `0`. -/
def pollLoop : List Event → Bool → List Call × Bool × List Event
  | [], running => ([SDL_PollEvent none], running, [])
  | event :: queue, running =>
    let r := pollLoop queue (dispatch event running)
    (SDL_PollEvent (some event) :: r.1, r.2.1, r.2.2)

/-- The draw code of the loop body. -/
def drawCode (shaderProgram VAO : Nat) : List Call :=
  [glUseProgram shaderProgram, glBindVertexArray VAO, glDrawArrays GL_TRIANGLES 0 3]

/-- One pass through the body of `while (running)`, entered with `running`
true, on the batch of events pending during that pass. -/
def frame (g : Globals) (shaderProgram VAO : Nat) (batch : List Event) : List Call :=
  Render ++ (pollLoop batch true).1 ++ drawCode shaderProgram VAO ++ Update g

/-- The loop `while (running) ...`: one trace per executed iteration; `none`
when the script ends while `running` is still true. -/
def mainLoop (g : Globals) (shaderProgram VAO : Nat) :
    Bool → List (List Event) → Option (List (List Call))
  | false, _ => some []
  | true, [] => none
  | true, batch :: script =>
    (mainLoop g shaderProgram VAO (pollLoop batch true).2.1 script).map
      (fun frames => frame g shaderProgram VAO batch :: frames)

/-- Lines 95-100 of `main`: viewport and fixed-function state. -/
def fixedFunctionSetup : List Call :=
  [glViewport 0 0 WIDTH HEIGHT,
   glEnable GL_CULL_FACE,
   glCullFace GL_BACK,
   glFrontFace GL_CCW]

/-- Lines 105-152 of `main`: build the shader program. -/
def shaderSetup (env : Env) : List Call :=
  let vertexShader := env.vertexShader
  let t : List Call :=
    [glCreateShader GL_VERTEX_SHADER vertexShader,
     glShaderSource vertexShader 1 vertexShaderSource,
     glCompileShader vertexShader,
     glGetShaderiv vertexShader GL_COMPILE_STATUS env.vertexStatus]
  let t := if env.vertexStatus = 0 then
      t ++ [glGetShaderInfoLog vertexShader 512 env.vertexLog,
            cout "ERROR::SHADER::VERTEX::COMPILATION_FAILED\n",
            cout env.vertexLog, endl]
    else t
  let fragmentShader := env.fragmentShader
  let t := t ++
    [glCreateShader GL_FRAGMENT_SHADER fragmentShader,
     glShaderSource fragmentShader 1 fragmentShaderSource,
     glCompileShader fragmentShader]
  let shaderProgram := env.shaderProgram
  let t := t ++
    [glCreateProgram shaderProgram,
     glAttachShader shaderProgram vertexShader,
     glAttachShader shaderProgram fragmentShader,
     glLinkProgram shaderProgram,
     glGetProgramiv shaderProgram GL_LINK_STATUS env.linkStatus]
  let t := if env.linkStatus = 0 then
      t ++ [glGetProgramInfoLog shaderProgram 512 env.linkLog,
            cout "ERROR::PROGRAM::LINKING::COMPILATION_FAILED\n",
            cout env.linkLog, endl]
    else t
  t ++ [glUseProgram shaderProgram,
        glDeleteShader vertexShader,
        glDeleteShader fragmentShader]

/-- Lines 158-196 of `main`: vertex array, buffer, upload, layout. -/
def geometrySetup (env : Env) : List Call :=
  [glGenVertexArrays 1 env.VAO,
   glBindVertexArray env.VAO,
   glGenBuffers 1 env.VBO,
   glBindBuffer GL_ARRAY_BUFFER env.VBO,
   glBufferData GL_ARRAY_BUFFER sizeofVertices vertices GL_STATIC_DRAW,
   glVertexAttribPointer 0 3 GL_FLOAT false (3 * sizeofFloat) 0,
   glEnableVertexAttribArray 0]

/-- Lines 92-196 of `main`, everything before `bool running{ true }`: the
statics after `Init()` and the calls in program order.  The calls after those of
`Init()` go through glad's entry points; `main` gets to make them only when the
entry points are loaded. -/
def mainSetup (env : Env) : Globals × List Call :=
  let r := Init env { window := 0, context := 0 }
  (r.1, r.2 ++ fixedFunctionSetup ++ shaderSetup env ++ geometrySetup env)

/-- Lines 234-239 of `main`: releases and `Quit()`. -/
def mainTeardown (env : Env) (g : Globals) : List Call :=
  [glDeleteVertexArrays 1 env.VAO,
   glDeleteBuffers 1 env.VBO,
   glDeleteProgram env.shaderProgram] ++ Quit g

/-- The loop of `main` run on an event script, from the statics `Init()` left:
the frames `main` executes once it has reached the loop. -/
def mainFrames (env : Env) (script : List (List Event)) : Option (List (List Call)) :=
  mainLoop (mainSetup env).1 env.shaderProgram env.VAO true script

/-- How a run of the process ends: `main` returns a status, or the process
dies on a call through a null entry point. -/
inductive Ending
  | returned (status : Int)
  | crashed
  deriving DecidableEq, Repr

/-- State of glad's table of OpenGL entry points after a trace: the entry
points (`glViewport` and all the others) are null pointers until a call of
`gladLoadGLLoader` has returned non-zero. -/
def entryPointsLoaded (t : List Call) : Bool :=
  t.any fun c => match c with
    | gladLoadGLLoader result => decide (result ≠ 0)
    | _ => false

/-- `int main(...)`: the full trace and the ending.  `Init()` has no result and
`main` does not test anything after it.  When `Init()` has loaded the entry
points, `main` runs setup, loop and teardown and returns `0`.  When `Init()`
returned early (no window, or the loader failed), the next statement, the call
of `glViewport` at line 95, goes through a null entry point: the process dies
there, having issued the calls of `Init()` only. -/
def main (env : Env) (script : List (List Event)) : Option (List Call × Ending) :=
  if entryPointsLoaded (Init env { window := 0, context := 0 }).2 then
    (mainFrames env script).map fun frames =>
      ((mainSetup env).2 ++ frames.flatten ++ mainTeardown env (mainSetup env).1,
       Ending.returned 0)
  else
    some ((Init env { window := 0, context := 0 }).2, Ending.crashed)

/-! ## Observations on traces -/

/-- A close event, or a key press of the escape key. -/
def isStopEvent (e : Event) : Prop :=
  e.type = SDL_QUIT ∨ (e.type = SDL_KEYDOWN ∧ e.sym = SDLK_ESCAPE)

instance (e : Event) : Decidable (isStopEvent e) := by
  unfold isStopEvent; infer_instance

/-- The events handed back by the polls of a trace, in order. -/
def polledEvents (t : List Call) : List Event :=
  t.filterMap fun c => match c with
    | SDL_PollEvent (some e) => some e
    | _ => none

/-- Recogniser of `SDL_PollEvent` calls. -/
def isPoll : Call → Bool
  | SDL_PollEvent _ => true
  | _ => false

/-- Recogniser of `glDrawArrays` calls. -/
def isDraw : Call → Bool
  | glDrawArrays _ _ _ => true
  | _ => false

/-- Recogniser of the three calls of the draw code. -/
def isDrawCode : Call → Bool
  | glUseProgram _ => true
  | glBindVertexArray _ => true
  | glDrawArrays _ _ _ => true
  | _ => false

/-- Recogniser of `glDetachShader` calls. -/
def isDetach : Call → Bool
  | glDetachShader _ _ => true
  | _ => false

/-- The kinds of handle the program creates. -/
inductive HandleKind
  | window
  | context
  | shader
  | program
  | vertexArray
  | buffer
  deriving DecidableEq, Repr

/-- The handle a call acquires, if it is a creation call. -/
def acquires : Call → Option (HandleKind × Nat)
  | SDL_CreateWindow _ _ _ _ _ _ h => some (.window, h)
  | SDL_GL_CreateContext _ h => some (.context, h)
  | glCreateShader _ h => some (.shader, h)
  | glCreateProgram h => some (.program, h)
  | glGenVertexArrays _ h => some (.vertexArray, h)
  | glGenBuffers _ h => some (.buffer, h)
  | _ => none

/-- The handle a call releases, if it is a release call. -/
def releases : Call → Option (HandleKind × Nat)
  | SDL_DestroyWindow h => some (.window, h)
  | SDL_GL_DeleteContext h => some (.context, h)
  | glDeleteShader h => some (.shader, h)
  | glDeleteProgram h => some (.program, h)
  | glDeleteVertexArrays _ h => some (.vertexArray, h)
  | glDeleteBuffers _ h => some (.buffer, h)
  | _ => none

/-- The handles acquired along a trace, in order. -/
def acquisitions (t : List Call) : List (HandleKind × Nat) := t.filterMap acquires

/-- The handles released along a trace, in order. -/
def releaseOrder (t : List Call) : List (HandleKind × Nat) := t.filterMap releases

/-- The slice of the OpenGL context state the program's calls act on: the
current program, the bound vertex array, the buffer bound to the array-buffer
target, and the face-culling state. -/
structure GLState where
  program : Nat
  vertexArray : Nat
  arrayBuffer : Nat
  cullFace : Bool
  cullFaceMode : GLenum
  frontFace : GLenum
  deriving DecidableEq, Repr

/-- The initial state of a fresh OpenGL context: nothing bound, culling
disabled, cull mode `GL_BACK`, front face `GL_CCW`. -/
def GLState.initial : GLState :=
  { program := 0, vertexArray := 0, arrayBuffer := 0,
    cullFace := false, cullFaceMode := GL_BACK, frontFace := GL_CCW }

/-- Effect of one call on the OpenGL state, as the OpenGL specification
defines the binding and culling commands; every other call leaves the slice
unchanged. -/
def glStep (s : GLState) : Call → GLState
  | glUseProgram p => { s with program := p }
  | glBindVertexArray a => { s with vertexArray := a }
  | glBindBuffer GL_ARRAY_BUFFER b => { s with arrayBuffer := b }
  | glEnable GL_CULL_FACE => { s with cullFace := true }
  | glCullFace m => { s with cullFaceMode := m }
  | glFrontFace m => { s with frontFace := m }
  | _ => s

/-- The OpenGL state after a trace. -/
def glRun (s : GLState) (t : List Call) : GLState := t.foldl glStep s

/-- A vertex position in the plane. -/
abbrev Point := ℚ × ℚ

/-- The `i`-th vertex the layout `(size, stride, pointer)` of
`glVertexAttribPointer` describes in a float array (stride and pointer in
floats), projected to its x and y components. -/
def vertexXY (data : List ℚ) (strideFloats : Nat) (i : Nat) : Point :=
  (data.getD (strideFloats * i) 0, data.getD (strideFloats * i + 1) 0)

/-- Twice the signed area of a triangle; positive when the vertices run
counter-clockwise. -/
def signedArea2 (a b c : Point) : ℚ :=
  (b.1 - a.1) * (c.2 - a.2) - (c.1 - a.1) * (b.2 - a.2)

/-- The viewport transformation of `glViewport(x, y, w, h)` from normalised
device coordinates to window coordinates. -/
def toWindow (x y w h : Int) (p : Point) : Point :=
  ((p.1 + 1) * (w / 2) + x, (p.2 + 1) * (h / 2) + y)

/-- Facing of a triangle as the OpenGL specification defines it: with front
face `GL_CCW` a triangle of positive window-space area is front facing, with
`GL_CW` one of negative area. -/
def frontFacing (s : GLState) (area2 : ℚ) : Bool :=
  if s.frontFace = GL_CCW then decide (0 < area2) else decide (area2 < 0)

/-- Whether face culling discards a triangle of the given window-space area. -/
def culled (s : GLState) (area2 : ℚ) : Bool :=
  s.cullFace &&
    (s.cullFaceMode = GL_FRONT_AND_BACK ||
     (s.cullFaceMode = GL_BACK && !frontFacing s area2) ||
     (s.cullFaceMode = GL_FRONT && frontFacing s area2))

/-- The byte offsets one attribute fetch reads for vertex `i`: `size`
components of `sizeofFloat` bytes, starting at `pointer + i * stride`. -/
def attribBytes (size stride pointer : Nat) (i : Nat) : List Nat :=
  (List.range (size * sizeofFloat)).map fun k => pointer + i * stride + k

/-- The byte offsets `glDrawArrays(mode, first, count)` reads from the bound
buffer under the layout `(size, stride, pointer)`. -/
def drawBytes (size stride pointer first count : Nat) : List Nat :=
  ((List.range count).map fun j => attribBytes size stride pointer (first + j)).flatten

/-- Setup succeeded: window and context were created, the loader ran, both
shaders compiled and the program linked. -/
def SetupOk (env : Env) : Prop :=
  env.window ≠ 0 ∧ env.context ≠ 0 ∧ env.gladResult ≠ 0 ∧
  env.vertexStatus ≠ 0 ∧ env.fragmentStatus ≠ 0 ∧ env.linkStatus ≠ 0

instance (env : Env) : Decidable (SetupOk env) := by
  unfold SetupOk; infer_instance

/-- A sample environment in which every step succeeds. -/
def envOk : Env :=
  { window := 1, context := 2, gladResult := 1,
    vertexShader := 1, vertexStatus := 1, vertexLog := "",
    fragmentShader := 2, fragmentStatus := 1,
    shaderProgram := 3, linkStatus := 1, linkLog := "",
    VAO := 1, VBO := 1 }

/-- A sample script: an idle frame, a frame with a key press of `a` and a key
release of escape, then a frame in which escape is pressed, followed by a
mouse motion event. -/
def scriptEsc : List (List Event) :=
  [[], [⟨SDL_KEYDOWN, 97⟩, ⟨SDL_KEYUP, 27⟩], [⟨SDL_KEYDOWN, 27⟩, ⟨0x400, 0⟩]]

/-- The four kinds of handle that outlive setup and have a release call in
the teardown of `main`. -/
def tracked (h : HandleKind × Nat) : Bool :=
  h.1 = .window || h.1 = .program || h.1 = .vertexArray || h.1 = .buffer

/-- The steps of the setup protocol. -/
inductive Phase
  | attributes
  | windowCreate
  | contextCreate
  | viewport
  | cullEnable
  | cullMode
  | winding
  | compile
  | link
  | detachShader
  | deleteShader
  | arrayCreate
  | arrayBind
  | bufferCreate
  | bufferBind
  | upload
  | describe
  | enable
  deriving DecidableEq, Repr

/-- The setup step a call performs, if any. -/
def phase : Call → Option Phase
  | SDL_GL_SetAttribute _ _ => some .attributes
  | SDL_CreateWindow _ _ _ _ _ _ _ => some .windowCreate
  | SDL_GL_CreateContext _ _ => some .contextCreate
  | glViewport _ _ _ _ => some .viewport
  | glEnable _ => some .cullEnable
  | glCullFace _ => some .cullMode
  | glFrontFace _ => some .winding
  | glCompileShader _ => some .compile
  | glLinkProgram _ => some .link
  | glDetachShader _ _ => some .detachShader
  | glDeleteShader _ => some .deleteShader
  | glGenVertexArrays _ _ => some .arrayCreate
  | glBindVertexArray _ => some .arrayBind
  | glGenBuffers _ _ => some .bufferCreate
  | glBindBuffer _ _ => some .bufferBind
  | glBufferData _ _ _ _ => some .upload
  | glVertexAttribPointer _ _ _ _ _ _ => some .describe
  | glEnableVertexAttribArray _ => some .enable
  | _ => none

/-- The calls of a successful setup, in program order. -/
def setupCalls (env : Env) : List Call :=
  [cout "Hello World!",
   SDL_Init SDL_INIT_VIDEO,
   -- graphics API version and profile
   SDL_GL_SetAttribute SDL_GL_CONTEXT_PROFILE_MASK SDL_GL_CONTEXT_PROFILE_CORE,
   SDL_GL_SetAttribute SDL_GL_CONTEXT_MAJOR_VERSION 3,
   SDL_GL_SetAttribute SDL_GL_CONTEXT_MINOR_VERSION 3,
   -- window, context, loader
   SDL_CreateWindow "Hello Triangle" SDL_WINDOWPOS_UNDEFINED SDL_WINDOWPOS_UNDEFINED
     WIDTH HEIGHT SDL_WINDOW_OPENGL env.window,
   SDL_GL_CreateContext env.window env.context,
   gladLoadGLLoader env.gladResult,
   -- viewport
   glViewport 0 0 WIDTH HEIGHT,
   -- culling and winding
   glEnable GL_CULL_FACE,
   glCullFace GL_BACK,
   glFrontFace GL_CCW,
   -- compile
   glCreateShader GL_VERTEX_SHADER env.vertexShader,
   glShaderSource env.vertexShader 1 vertexShaderSource,
   glCompileShader env.vertexShader,
   glGetShaderiv env.vertexShader GL_COMPILE_STATUS env.vertexStatus,
   glCreateShader GL_FRAGMENT_SHADER env.fragmentShader,
   glShaderSource env.fragmentShader 1 fragmentShaderSource,
   glCompileShader env.fragmentShader,
   -- link
   glCreateProgram env.shaderProgram,
   glAttachShader env.shaderProgram env.vertexShader,
   glAttachShader env.shaderProgram env.fragmentShader,
   glLinkProgram env.shaderProgram,
   glGetProgramiv env.shaderProgram GL_LINK_STATUS env.linkStatus,
   glUseProgram env.shaderProgram,
   -- delete the shader objects
   glDeleteShader env.vertexShader,
   glDeleteShader env.fragmentShader,
   -- vertex array
   glGenVertexArrays 1 env.VAO,
   glBindVertexArray env.VAO,
   -- buffer
   glGenBuffers 1 env.VBO,
   glBindBuffer GL_ARRAY_BUFFER env.VBO,
   -- upload
   glBufferData GL_ARRAY_BUFFER sizeofVertices vertices GL_STATIC_DRAW,
   -- layout
   glVertexAttribPointer 0 3 GL_FLOAT false (3 * sizeofFloat) 0,
   glEnableVertexAttribArray 0]

/-- The expected sequence of setup steps: the phases of `setupCalls`. -/
def setupPhases : List Phase :=
  [.attributes, .attributes, .attributes, .windowCreate, .contextCreate, .viewport,
   .cullEnable, .cullMode, .winding, .compile, .compile, .link,
   .deleteShader, .deleteShader, .arrayCreate, .arrayBind, .bufferCreate, .bufferBind,
   .upload, .describe, .enable]

/-- The three vertices of the draw call, as the layout of `geometrySetup`
(three floats per vertex, no offset) reads them from `vertices`; the vertex
shader passes x and y through with `w = 1`, so these are also the normalised
device coordinates. -/
def triangle : Point × Point × Point :=
  (vertexXY vertices 3 0, vertexXY vertices 3 1, vertexXY vertices 3 2)

/-- Twice the signed area of the triangle in window coordinates, under the
viewport `glViewport(0, 0, WIDTH, HEIGHT)`. -/
def windowArea2 : ℚ :=
  signedArea2 (toWindow 0 0 WIDTH HEIGHT triangle.1)
    (toWindow 0 0 WIDTH HEIGHT triangle.2.1) (toWindow 0 0 WIDTH HEIGHT triangle.2.2)

/-- The OpenGL state in which the draw call of a frame executes: after setup,
any number of earlier frames, and the part of the current frame that precedes
`glDrawArrays`. -/
def stateAtDraw (env : Env) (earlier : List (List Event)) (batch : List Event) : GLState :=
  glRun GLState.initial
    ((mainSetup env).2
      ++ (earlier.map (frame (mainSetup env).1 env.shaderProgram env.VAO)).flatten
      ++ (Render ++ (pollLoop batch true).1
            ++ [glUseProgram env.shaderProgram, glBindVertexArray env.VAO]))

/-- The face-culling part of the OpenGL state. -/
def cullState (s : GLState) : Bool × GLenum × GLenum :=
  (s.cullFace, s.cullFaceMode, s.frontFace)

/-- Recogniser of the calls that can change the face-culling state. -/
def touchesCull : Call → Bool
  | glEnable _ => true
  | glCullFace _ => true
  | glFrontFace _ => true
  | _ => false

/-- Some event of the batch is a close event or an escape key press. -/
def batchStops (batch : List Event) : Prop := ∃ e ∈ batch, isStopEvent e

instance (batch : List Event) : Decidable (batchStops batch) := by
  unfold batchStops; infer_instance

/-! ## The event loop -/

theorem dispatch_false (e : Event) : dispatch e false = false := by
  unfold dispatch; split_ifs <;> rfl

theorem dispatch_true_iff (e : Event) : dispatch e true = false ↔ isStopEvent e := by
  unfold dispatch isStopEvent
  by_cases h1 : e.type = SDL_QUIT
  · simp [h1]
  · by_cases h2 : e.type = SDL_KEYDOWN
    · by_cases h3 : e.sym = SDLK_ESCAPE <;> simp [h1, h2, h3]
    · simp [h1, h2]

theorem pollLoop_false (batch : List Event) : (pollLoop batch false).2.1 = false := by
  induction batch with
  | nil => rfl
  | cons e q ih => simp only [pollLoop, dispatch_false, ih]

theorem pollLoop_running_iff (batch : List Event) :
    (pollLoop batch true).2.1 = false ↔ batchStops batch := by
  induction batch with
  | nil => simp [pollLoop, batchStops]
  | cons e q ih =>
    simp only [pollLoop, batchStops, List.mem_cons, exists_eq_or_imp]
    cases hd : dispatch e true with
    | false =>
      have he : isStopEvent e := (dispatch_true_iff e).1 hd
      simp [pollLoop_false, he]
    | true =>
      have he : ¬ isStopEvent e := fun h => by
        rw [(dispatch_true_iff e).2 h] at hd; exact Bool.noConfusion hd
      rw [ih]; simp [he, batchStops]

theorem pollLoop_trace (batch : List Event) (running : Bool) :
    (pollLoop batch running).1
      = batch.map (fun e => SDL_PollEvent (some e)) ++ [SDL_PollEvent none] := by
  induction batch generalizing running with
  | nil => rfl
  | cons e q ih => simp only [pollLoop, ih, List.map_cons, List.cons_append]

theorem pollLoop_queue (batch : List Event) (running : Bool) :
    (pollLoop batch running).2.2 = [] := by
  induction batch generalizing running with
  | nil => rfl
  | cons e q ih => simp only [pollLoop, ih]

theorem pollLoop_append (pre post : List Event) (running : Bool) :
    (pollLoop (pre ++ post) running).2.1
      = (pollLoop post (pollLoop pre running).2.1).2.1 := by
  induction pre generalizing running with
  | nil => rfl
  | cons e q ih =>
    show (pollLoop (q ++ post) (dispatch e running)).2.1 = _
    rw [ih]; rfl

theorem polledEvents_polls (batch : List Event) :
    polledEvents (batch.map (fun e => SDL_PollEvent (some e)) ++ [SDL_PollEvent none])
      = batch := by
  induction batch with
  | nil => rfl
  | cons e q ih =>
    simp only [polledEvents, List.map_cons, List.cons_append, List.filterMap_cons] at ih ⊢
    rw [ih]

theorem filter_isPoll_polls (batch : List Event) :
    (batch.map (fun e => SDL_PollEvent (some e)) ++ [SDL_PollEvent none]).filter isPoll
      = batch.map (fun e => SDL_PollEvent (some e)) ++ [SDL_PollEvent none] := by
  apply List.filter_eq_self.2
  intro c hc
  simp only [List.mem_append, List.mem_map, List.mem_singleton] at hc
  rcases hc with ⟨e, _, rfl⟩ | rfl <;> rfl

/-- C1: starting from `running = true`, the flag is false after a batch exactly
when the batch holds a close event or an escape key press; a batch without one
leaves it true (a key press of another key and a key release of escape do not
change it), and once the flag is false no later event of the batch sets it
back. -/
theorem C1_running_after_batch (batch : List Event) :
    ((pollLoop batch true).2.1 = false ↔
        ∃ e ∈ batch, e.type = SDL_QUIT ∨ (e.type = SDL_KEYDOWN ∧ e.sym = SDLK_ESCAPE)) ∧
    ((∀ e ∈ batch, ¬ (e.type = SDL_QUIT ∨ (e.type = SDL_KEYDOWN ∧ e.sym = SDLK_ESCAPE))) →
        (pollLoop batch true).2.1 = true) ∧
    (∀ sym : Int, sym ≠ SDLK_ESCAPE → dispatch ⟨SDL_KEYDOWN, sym⟩ true = true) ∧
    dispatch ⟨SDL_KEYUP, SDLK_ESCAPE⟩ true = true ∧
    (∀ pre post : List Event, batch = pre ++ post →
        (pollLoop pre true).2.1 = false → (pollLoop batch true).2.1 = false) := by
  have hiff := pollLoop_running_iff batch
  refine ⟨hiff, ?_, ?_, ?_, ?_⟩
  · intro h
    cases hr : (pollLoop batch true).2.1 with
    | true => rfl
    | false =>
      obtain ⟨e, he, hs⟩ := hiff.1 hr
      exact absurd hs (h e he)
  · intro sym hsym
    simp [dispatch, SDL_KEYDOWN, SDL_QUIT, hsym]
  · simp [dispatch, SDL_KEYUP, SDL_KEYDOWN, SDL_QUIT]
  · intro pre post hb hpre
    rw [hb, pollLoop_append, hpre, pollLoop_false]

/-- C8: the poll loop drains the whole batch whatever the position of a close
or escape event in it: the events polled are exactly the batch, in order, the
poll is called once per event plus one final empty poll, which is the last call
of the loop, and the queue is empty afterwards; this holds in particular for a
batch with events after the stop event, and for the iteration as a whole. -/
theorem C8_batch_drained (batch : List Event) (running : Bool) :
    (pollLoop batch running).1
        = batch.map (fun e => SDL_PollEvent (some e)) ++ [SDL_PollEvent none] ∧
    polledEvents (pollLoop batch running).1 = batch ∧
    ((pollLoop batch running).1.filter isPoll).length = batch.length + 1 ∧
    (pollLoop batch running).2.2 = [] ∧
    (∀ (pre post : List Event) (e : Event), batch = pre ++ e :: post → isStopEvent e →
        polledEvents (pollLoop batch true).1 = pre ++ e :: post) ∧
    (∀ (g : Globals) (p vao : Nat), polledEvents (frame g p vao batch) = batch) := by
  have ht := pollLoop_trace batch running
  refine ⟨ht, ?_, ?_, pollLoop_queue batch running, ?_, ?_⟩
  · rw [ht, polledEvents_polls]
  · rw [ht, filter_isPoll_polls]; simp
  · intro pre post e hb _
    rw [pollLoop_trace, polledEvents_polls, hb]
  · intro g p vao
    have h := polledEvents_polls batch
    simp only [frame, pollLoop_trace, polledEvents, Render, drawCode, Update,
      List.filterMap_append, List.filterMap_cons, List.filterMap_nil,
      List.nil_append, List.append_nil] at h ⊢
    exact h

/-! ## The frame loop -/

theorem mainLoop_stopped (g : Globals) (p vao : Nat) (script : List (List Event)) :
    mainLoop g p vao false script = some [] := by
  cases script <;> rfl

theorem mainLoop_split (g : Globals) (p vao : Nat) (pre : List (List Event))
    (b : List Event) (post : List (List Event))
    (hpre : ∀ x ∈ pre, ¬ batchStops x) (hb : batchStops b) :
    mainLoop g p vao true (pre ++ b :: post) = some ((pre ++ [b]).map (frame g p vao)) := by
  induction pre with
  | nil =>
    have h : (pollLoop b true).2.1 = false := (pollLoop_running_iff b).2 hb
    simp [mainLoop, h, mainLoop_stopped]
  | cons x pre ih =>
    have hx : (pollLoop x true).2.1 = true := by
      cases hr : (pollLoop x true).2.1 with
      | true => rfl
      | false =>
        exact absurd ((pollLoop_running_iff x).1 hr) (hpre x (List.mem_cons_self x pre))
    have ih2 := ih (fun y hy => hpre y (List.mem_cons_of_mem x hy))
    simp [mainLoop, hx, ih2]

theorem mainLoop_none (g : Globals) (p vao : Nat) (script : List (List Event))
    (h : ∀ x ∈ script, ¬ batchStops x) : mainLoop g p vao true script = none := by
  induction script with
  | nil => rfl
  | cons x script ih =>
    have hx : (pollLoop x true).2.1 = true := by
      cases hr : (pollLoop x true).2.1 with
      | true => rfl
      | false =>
        exact absurd ((pollLoop_running_iff x).1 hr) (h x (List.mem_cons_self x script))
    have ih2 := ih (fun y hy => h y (List.mem_cons_of_mem x hy))
    simp [mainLoop, hx, ih2]

theorem mainLoop_some (g : Globals) (p vao : Nat) (script : List (List Event))
    (frames : List (List Call)) (h : mainLoop g p vao true script = some frames) :
    ∃ pre b post, script = pre ++ b :: post ∧ (∀ x ∈ pre, ¬ batchStops x) ∧
      batchStops b ∧ frames = (pre ++ [b]).map (frame g p vao) := by
  induction script generalizing frames with
  | nil => simp [mainLoop] at h
  | cons x script ih =>
    by_cases hx : batchStops x
    · refine ⟨[], x, script, rfl, ?_, hx, ?_⟩
      · intro y hy; cases hy
      · have h2 := mainLoop_split g p vao [] x script (fun y hy => by cases hy) hx
        simp only [List.nil_append] at h2
        rw [h2] at h
        exact (Option.some.inj h).symm
    · have hr : (pollLoop x true).2.1 = true := by
        cases hr : (pollLoop x true).2.1 with
        | true => rfl
        | false => exact absurd ((pollLoop_running_iff x).1 hr) hx
      simp only [mainLoop, hr, Option.map_eq_some'] at h
      obtain ⟨rest, hrest, hframes⟩ := h
      obtain ⟨pre, b, post, hs, hpre, hb, hf⟩ := ih rest hrest
      refine ⟨x :: pre, b, post, by rw [hs]; rfl, ?_, hb, ?_⟩
      · intro y hy
        rcases List.mem_cons.1 hy with rfl | hy
        · exact hx
        · exact hpre y hy
      · rw [← hframes, hf]; rfl

theorem exists_first_stop (script : List (List Event))
    (h : ∃ b ∈ script, batchStops b) :
    ∃ pre c post, script = pre ++ c :: post ∧ (∀ y ∈ pre, ¬ batchStops y) ∧
      batchStops c := by
  induction script with
  | nil => obtain ⟨b, hb, _⟩ := h; cases hb
  | cons y ys ih =>
    by_cases hy : batchStops y
    · exact ⟨[], y, ys, rfl, fun z hz => (by cases hz), hy⟩
    · obtain ⟨b, hmem, hb⟩ := h
      rcases List.mem_cons.1 hmem with rfl | hmem2
      · exact absurd hb hy
      · obtain ⟨pre, c, post, hs, hp, hc⟩ := ih ⟨b, hmem2, hb⟩
        refine ⟨y :: pre, c, post, by rw [hs]; rfl, ?_, hc⟩
        intro z hz
        rcases List.mem_cons.1 hz with rfl | hz
        · exact hy
        · exact hp z hz

theorem Init_loaded_iff (env : Env) (g : Globals) :
    entryPointsLoaded (Init env g).2 = true ↔ env.window ≠ 0 ∧ env.gladResult ≠ 0 := by
  by_cases hw : env.window = 0
  · simp [Init, entryPointsLoaded, hw]
  · by_cases hg : env.gladResult = 0 <;> simp [Init, entryPointsLoaded, hw, hg]

theorem main_of_loaded (env : Env) (script : List (List Event))
    (hw : env.window ≠ 0) (hg : env.gladResult ≠ 0) :
    main env script
      = (mainFrames env script).map fun frames =>
          ((mainSetup env).2 ++ frames.flatten ++ mainTeardown env (mainSetup env).1,
           Ending.returned 0) := by
  have h := (Init_loaded_iff env { window := 0, context := 0 }).2 ⟨hw, hg⟩
  simp only [main, h, if_true]

theorem main_of_not_loaded (env : Env) (script : List (List Event))
    (h : ¬ (env.window ≠ 0 ∧ env.gladResult ≠ 0)) :
    main env script = some ((Init env { window := 0, context := 0 }).2, Ending.crashed) := by
  have h2 : entryPointsLoaded (Init env { window := 0, context := 0 }).2 = false := by
    cases hl : entryPointsLoaded (Init env { window := 0, context := 0 }).2 with
    | false => rfl
    | true => exact absurd ((Init_loaded_iff env _).1 hl) h
  simp [main, h2]

/-- When `Init()` has loaded the entry points, the loop ends, and `main`
returns, exactly on the scripts that contain a batch with a close or escape
event. -/
theorem main_returns_iff (env : Env) (script : List (List Event))
    (hw : env.window ≠ 0) (hg : env.gladResult ≠ 0) :
    (∃ r, main env script = some r) ↔ ∃ b ∈ script, batchStops b := by
  rw [main_of_loaded env script hw hg]
  constructor
  · rintro ⟨r, hr⟩
    simp only [Option.map_eq_some'] at hr
    obtain ⟨frames, hf, _⟩ := hr
    obtain ⟨pre, b, post, hs, _, hb, _⟩ := mainLoop_some _ _ _ _ _ hf
    exact ⟨b, by rw [hs]; simp, hb⟩
  · intro h
    obtain ⟨pre, c, post, hs, hp, hc⟩ := exists_first_stop script h
    have hm := mainLoop_split (mainSetup env).1 env.shaderProgram env.VAO pre c post hp hc
    rw [← hs] at hm
    exact ⟨_, by rw [mainFrames, hm]; rfl⟩

/-- A run that ends either returns status `0`, which it does when the entry
points were loaded, or dies at the first OpenGL call. -/
theorem main_ending (env : Env) (script : List (List Event)) (r : List Call × Ending)
    (h : main env script = some r) :
    (env.window ≠ 0 ∧ env.gladResult ≠ 0 → r.2 = Ending.returned 0) ∧
    (¬ (env.window ≠ 0 ∧ env.gladResult ≠ 0) → r.2 = Ending.crashed) := by
  constructor
  · intro hl
    rw [main_of_loaded env script hl.1 hl.2] at h
    simp only [Option.map_eq_some'] at h
    obtain ⟨_, _, rfl⟩ := h
    rfl
  · intro hl
    rw [main_of_not_loaded env script hl] at h
    rw [← Option.some.inj h]

theorem split_unique {α : Type} (P : α → Prop) {a b pre post : List α} {x y : α}
    (h : a ++ x :: b = pre ++ y :: post)
    (ha : ∀ z ∈ a, ¬ P z) (hb : ∀ z ∈ b, ¬ P z) (hy : P y) :
    pre = a ∧ y = x ∧ post = b := by
  induction a generalizing pre with
  | nil =>
    cases pre with
    | nil =>
      simp only [List.nil_append, List.cons.injEq] at h
      exact ⟨rfl, h.1.symm, h.2.symm⟩
    | cons q pre =>
      simp only [List.nil_append, List.cons_append, List.cons.injEq] at h
      exact absurd hy (hb y (by rw [h.2]; simp))
  | cons z a ih =>
    cases pre with
    | nil =>
      simp only [List.nil_append, List.cons_append, List.cons.injEq] at h
      exact absurd hy (by rw [← h.1]; exact ha z (List.mem_cons_self z a))
    | cons q pre =>
      simp only [List.cons_append, List.cons.injEq] at h
      obtain ⟨h1, h2, h3⟩ := ih h.2 (fun w hw => ha w (List.mem_cons_of_mem z hw))
      exact ⟨by rw [h.1, h1], h2, h3⟩

theorem glRun_append (s : GLState) (t u : List Call) :
    glRun s (t ++ u) = glRun (glRun s t) u := by
  simp [glRun, List.foldl_append]

theorem frame_split (g : Globals) (p vao : Nat) (batch : List Event) :
    frame g p vao batch
      = (Render ++ (pollLoop batch true).1 ++ [glUseProgram p, glBindVertexArray vao])
          ++ glDrawArrays GL_TRIANGLES 0 3 :: Update g := by
  simp [frame, drawCode]

theorem frame_before_draw (p vao : Nat) (batch : List Event) :
    ∀ z ∈ Render ++ (pollLoop batch true).1 ++ [glUseProgram p, glBindVertexArray vao],
      ¬ (isDraw z = true) := by
  intro z hz
  rw [pollLoop_trace] at hz
  simp only [Render, List.mem_append, List.mem_cons, List.mem_map, List.mem_singleton,
    List.not_mem_nil, or_false] at hz
  rcases hz with ((rfl | rfl) | (⟨e, _, rfl⟩ | rfl)) | (rfl | rfl) <;> simp [isDraw]

theorem frame_filter_isDraw (g : Globals) (p vao : Nat) (batch : List Event) :
    (frame g p vao batch).filter isDraw = [glDrawArrays GL_TRIANGLES 0 3] := by
  have h : (Render ++ (pollLoop batch true).1 ++ [glUseProgram p, glBindVertexArray vao]).filter
      isDraw = [] := by
    rw [List.filter_eq_nil_iff]; exact frame_before_draw p vao batch
  rw [frame_split, List.filter_append, h]
  simp [Update, isDraw]

/-! ## Setup and teardown -/

theorem Init_of_ok (env : Env) (g : Globals) (hw : env.window ≠ 0)
    (hg : env.gladResult ≠ 0) :
    Init env g = ({ window := env.window, context := env.context },
                  (setupCalls env).take 8) := by
  simp [Init, hw, hg, setupCalls]

theorem mainSetup_of_ok (env : Env) (hok : SetupOk env) :
    mainSetup env = ({ window := env.window, context := env.context }, setupCalls env) := by
  obtain ⟨hw, _, hg, hv, _, hl⟩ := hok
  simp [mainSetup, Init_of_ok env _ hw hg, fixedFunctionSetup, shaderSetup, geometrySetup,
    hv, hl, setupCalls]

theorem main_of_split (env : Env) (hok : SetupOk env) (pre : List (List Event))
    (b : List Event) (post : List (List Event))
    (hpre : ∀ x ∈ pre, ¬ batchStops x) (hb : batchStops b) :
    main env (pre ++ b :: post)
      = some (setupCalls env
                ++ ((pre ++ [b]).map
                      (frame ⟨env.window, env.context⟩ env.shaderProgram env.VAO)).flatten
                ++ mainTeardown env ⟨env.window, env.context⟩, Ending.returned 0) := by
  rw [main_of_loaded env _ hok.1 hok.2.2.1]
  simp only [mainFrames, mainSetup_of_ok env hok, mainLoop_split _ _ _ pre b post hpre hb,
    Option.map_some']

/-! ## Claims about the frame loop -/

/-- C2 (as stated, refuted): in the iteration whose batch holds a close event
the loop state is no longer running after the batch, and yet the frame issues
`glUseProgram`, `glBindVertexArray` and `glDrawArrays`. -/
theorem C2_draw_in_stopping_frame :
    (pollLoop [⟨SDL_QUIT, 0⟩] true).2.1 = false ∧
    (mainFrames envOk [[⟨SDL_QUIT, 0⟩]]).map (List.map (List.filter isDrawCode))
      = some [[glUseProgram 3, glBindVertexArray 1, glDrawArrays GL_TRIANGLES 0 3]] := by
  constructor <;> rfl

/-- C2 (amended): every iteration of the main loop, the one whose batch holds a
close or escape event included, issues the program and vertex-array
re-assertion and the draw of 3 vertices, unconditionally, after its batch has
been drained and before the present; the loop condition is tested only after
that, so the loop runs one frame per batch up to and including the first
stopping batch. -/
theorem C2_draw_every_frame (env : Env) (pre : List (List Event)) (b : List Event)
    (post : List (List Event)) (hpre : ∀ x ∈ pre, ¬ batchStops x) (hb : batchStops b) :
    mainFrames env (pre ++ b :: post)
      = some ((pre ++ [b]).map fun batch =>
          [glClearColor 0 0 0 0, glClear GL_COLOR_BUFFER_BIT]
            ++ (batch.map (fun e => SDL_PollEvent (some e)) ++ [SDL_PollEvent none])
            ++ [glUseProgram env.shaderProgram, glBindVertexArray env.VAO,
                glDrawArrays GL_TRIANGLES 0 3]
            ++ [SDL_GL_SwapWindow (mainSetup env).1.window]) ∧
    ∀ frames, mainFrames env (pre ++ b :: post) = some frames →
      frames.length = pre.length + 1 ∧
      ∀ f ∈ frames, f.filter isDrawCode
        = [glUseProgram env.shaderProgram, glBindVertexArray env.VAO,
           glDrawArrays GL_TRIANGLES 0 3] := by
  have hm := mainLoop_split (mainSetup env).1 env.shaderProgram env.VAO pre b post hpre hb
  have hframe : ∀ batch, frame (mainSetup env).1 env.shaderProgram env.VAO batch
      = [glClearColor 0 0 0 0, glClear GL_COLOR_BUFFER_BIT]
            ++ (batch.map (fun e => SDL_PollEvent (some e)) ++ [SDL_PollEvent none])
            ++ [glUseProgram env.shaderProgram, glBindVertexArray env.VAO,
                glDrawArrays GL_TRIANGLES 0 3]
            ++ [SDL_GL_SwapWindow (mainSetup env).1.window] := by
    intro batch
    simp only [frame, pollLoop_trace, Render, drawCode, Update]
  have hfilter : ∀ batch : List Event,
      (batch.map (fun e => SDL_PollEvent (some e)) ++ [SDL_PollEvent none]).filter isDrawCode
        = [] := by
    intro batch
    rw [List.filter_eq_nil_iff]
    intro c hc
    simp only [List.mem_append, List.mem_map, List.mem_singleton] at hc
    rcases hc with ⟨e, _, rfl⟩ | rfl <;> simp [isDrawCode]
  have hmf : mainFrames env (pre ++ b :: post)
      = some ((pre ++ [b]).map (frame (mainSetup env).1 env.shaderProgram env.VAO)) := hm
  refine ⟨?_, ?_⟩
  · rw [hmf]
    congr 1
    exact List.map_congr_left (fun batch _ => hframe batch)
  · intro frames hf
    rw [hmf] at hf
    have hf2 := (Option.some.inj hf).symm
    subst hf2
    refine ⟨by simp, ?_⟩
    intro f hfm
    obtain ⟨batch, _, rfl⟩ := List.mem_map.1 hfm
    rw [hframe, List.filter_append, List.filter_append, List.filter_append, hfilter]
    simp [isDrawCode]

/-- C2 (amended), instance: the three frames of the sample script. -/
theorem C2_draw_every_frame_witness :
    (∀ x ∈ [[], [(⟨SDL_KEYDOWN, 97⟩ : Event), ⟨SDL_KEYUP, 27⟩]], ¬ batchStops x) ∧
    batchStops [⟨SDL_KEYDOWN, 27⟩, ⟨0x400, 0⟩] ∧
    ∀ frames, mainFrames envOk scriptEsc = some frames →
      frames.length = 3 ∧
      ∀ f ∈ frames, f.filter isDrawCode
        = [glUseProgram 3, glBindVertexArray 1, glDrawArrays GL_TRIANGLES 0 3] :=
  ⟨by decide, by decide,
   (C2_draw_every_frame envOk [[], [⟨SDL_KEYDOWN, 97⟩, ⟨SDL_KEYUP, 27⟩]]
      [⟨SDL_KEYDOWN, 27⟩, ⟨0x400, 0⟩] [] (by decide) (by decide)).2⟩

/-- C3: on a run with successful setup (in which the program was created and
linked and the vertex array generated), every executed frame issues exactly one
draw call; it draws triangles, from index 0, 3 vertices, and in the OpenGL state
reached just before it the current program is the program created during setup
and the bound vertex array is the vertex array created during setup. -/
theorem C3_one_draw_per_frame (env : Env) (script : List (List Event))
    (frames : List (List Call)) (hok : SetupOk env)
    (hrun : mainFrames env script = some frames) :
    (glCreateProgram env.shaderProgram ∈ (mainSetup env).2 ∧
     glLinkProgram env.shaderProgram ∈ (mainSetup env).2 ∧
     glGenVertexArrays 1 env.VAO ∈ (mainSetup env).2) ∧
    ∀ before f after, frames = before ++ f :: after →
      f.filter isDraw = [glDrawArrays GL_TRIANGLES 0 3] ∧
      ∀ pre post mode first count, f = pre ++ glDrawArrays mode first count :: post →
        mode = GL_TRIANGLES ∧ first = 0 ∧ count = 3 ∧
        (glRun GLState.initial ((mainSetup env).2 ++ before.flatten ++ pre)).program
          = env.shaderProgram ∧
        (glRun GLState.initial ((mainSetup env).2 ++ before.flatten ++ pre)).vertexArray
          = env.VAO := by
  refine ⟨?_, ?_⟩
  · rw [mainSetup_of_ok env hok]
    simp [setupCalls]
  · intro before f after hsplit
    obtain ⟨spre, b, spost, _, _, _, hframes⟩ := mainLoop_some _ _ _ _ _ hrun
    have hmem : f ∈ frames := by rw [hsplit]; simp
    rw [hframes] at hmem
    obtain ⟨batch, _, rfl⟩ := List.mem_map.1 hmem
    refine ⟨frame_filter_isDraw _ _ _ _, ?_⟩
    intro pre post mode first count hf
    rw [frame_split] at hf
    obtain ⟨h1, h2, _⟩ := split_unique (fun z => isDraw z = true) hf
      (frame_before_draw _ _ batch) (by intro z hz; simp [Update] at hz; subst hz; simp [isDraw])
      rfl
    simp only [glDrawArrays.injEq] at h2
    refine ⟨h2.1, h2.2.1, h2.2.2, ?_, ?_⟩ <;>
    · rw [h1, ← List.append_assoc, glRun_append]
      simp [glRun, glStep]

/-- C3, instance: the second frame of the sample script. -/
theorem C3_one_draw_per_frame_witness :
    SetupOk envOk ∧
    mainFrames envOk scriptEsc = some (scriptEsc.map (frame ⟨1, 2⟩ 3 1)) ∧
    (frame ⟨1, 2⟩ 3 1 [⟨SDL_KEYDOWN, 97⟩, ⟨SDL_KEYUP, 27⟩]).filter isDraw
      = [glDrawArrays GL_TRIANGLES 0 3] :=
  ⟨by decide, rfl,
   ((C3_one_draw_per_frame envOk scriptEsc (scriptEsc.map (frame ⟨1, 2⟩ 3 1))
      (by decide) rfl).2 [frame ⟨1, 2⟩ 3 1 []]
      (frame ⟨1, 2⟩ 3 1 [⟨SDL_KEYDOWN, 97⟩, ⟨SDL_KEYUP, 27⟩])
      [frame ⟨1, 2⟩ 3 1 [⟨SDL_KEYDOWN, 27⟩, ⟨0x400, 0⟩]] rfl).1⟩

/-! ## Claims about acquisition and release -/

theorem filterMap_flatten_nil {α β : Type} (f : α → Option β) (L : List (List α))
    (h : ∀ l ∈ L, l.filterMap f = []) : L.flatten.filterMap f = [] := by
  induction L with
  | nil => rfl
  | cons l L ih =>
    rw [List.flatten_cons, List.filterMap_append, h l (List.mem_cons_self l L),
      ih (fun m hm => h m (List.mem_cons_of_mem l hm))]
    rfl

theorem frame_acquires (g : Globals) (p vao : Nat) (batch : List Event) :
    (frame g p vao batch).filterMap acquires = [] := by
  have h : ∀ l : List Event,
      (l.map (fun e => SDL_PollEvent (some e))).filterMap acquires = [] := by
    intro l
    induction l with
    | nil => rfl
    | cons e l ih => simp [acquires]
  simp [frame, pollLoop_trace, Render, drawCode, Update, List.filterMap_append, h, acquires]

theorem frame_releases (g : Globals) (p vao : Nat) (batch : List Event) :
    (frame g p vao batch).filterMap releases = [] := by
  have h : ∀ l : List Event,
      (l.map (fun e => SDL_PollEvent (some e))).filterMap releases = [] := by
    intro l
    induction l with
    | nil => rfl
    | cons e l ih => simp [releases]
  simp [frame, pollLoop_trace, Render, drawCode, Update, List.filterMap_append, h, releases]

/-- On a run with successful setup that returns, the handles acquired and the
handles released, each in program order. -/
theorem main_acquisitions_releases (env : Env) (script : List (List Event))
    (r : List Call × Ending) (hok : SetupOk env) (hmain : main env script = some r) :
    acquisitions r.1
      = [(.window, env.window), (.context, env.context), (.shader, env.vertexShader),
         (.shader, env.fragmentShader), (.program, env.shaderProgram),
         (.vertexArray, env.VAO), (.buffer, env.VBO)] ∧
    releaseOrder r.1
      = [(.shader, env.vertexShader), (.shader, env.fragmentShader),
         (.vertexArray, env.VAO), (.buffer, env.VBO), (.program, env.shaderProgram),
         (.window, env.window)] := by
  rw [main_of_loaded env script hok.1 hok.2.2.1] at hmain
  simp only [Option.map_eq_some'] at hmain
  obtain ⟨frames, hf, rfl⟩ := hmain
  obtain ⟨pre, b, post, _, _, _, hframes⟩ := mainLoop_some _ _ _ _ _ hf
  have ha : frames.flatten.filterMap acquires = [] := by
    apply filterMap_flatten_nil
    intro l hl
    rw [hframes] at hl
    obtain ⟨batch, _, rfl⟩ := List.mem_map.1 hl
    exact frame_acquires _ _ _ _
  have hr : frames.flatten.filterMap releases = [] := by
    apply filterMap_flatten_nil
    intro l hl
    rw [hframes] at hl
    obtain ⟨batch, _, rfl⟩ := List.mem_map.1 hl
    exact frame_releases _ _ _ _
  constructor
  · simp only [acquisitions, List.filterMap_append, ha, mainSetup_of_ok env hok]
    simp [setupCalls, mainTeardown, Quit, acquires]
  · simp only [releaseOrder, List.filterMap_append, hr, mainSetup_of_ok env hok]
    simp [setupCalls, mainTeardown, Quit, releases]

/-- C4 (evaluation at a failing run): on the sample run with successful setup
that ends on an escape key press, seven handles are acquired and six released;
the graphics context is acquired once and released zero times, while every
other handle is released exactly once. -/
theorem C4_context_never_released :
    (main envOk scriptEsc).map (fun r => (acquisitions r.1, releaseOrder r.1))
      = some ([(.window, 1), (.context, 2), (.shader, 1), (.shader, 2), (.program, 3),
               (.vertexArray, 1), (.buffer, 1)],
              [(.shader, 1), (.shader, 2), (.vertexArray, 1), (.buffer, 1), (.program, 3),
               (.window, 1)]) ∧
    (main envOk scriptEsc).map (fun r => (acquisitions r.1).count (.context, 2)) = some 1 ∧
    (main envOk scriptEsc).map (fun r => (releaseOrder r.1).count (.context, 2)) = some 0 := by
  refine ⟨?_, ?_, ?_⟩ <;> rfl

/-- C5 (as stated, refuted): on the sample run the vertex array is acquired
before the buffer and is also released before the buffer. -/
theorem C5_array_released_before_buffer :
    (main envOk scriptEsc).map
        (fun r => (((acquisitions r.1).filter tracked).map Prod.fst,
                   ((releaseOrder r.1).filter tracked).map Prod.fst))
      = some ([.window, .program, .vertexArray, .buffer],
              [.vertexArray, .buffer, .program, .window]) ∧
    List.indexOf HandleKind.vertexArray
        [HandleKind.window, .program, .vertexArray, .buffer]
      < List.indexOf HandleKind.buffer [HandleKind.window, .program, .vertexArray, .buffer] ∧
    ¬ (List.indexOf HandleKind.buffer [HandleKind.vertexArray, .buffer, .program, .window]
        < List.indexOf HandleKind.vertexArray
            [HandleKind.vertexArray, .buffer, .program, .window]) := by
  refine ⟨rfl, by decide, by decide⟩

/-- C5 (amended): on a run with successful setup that returns, every release of
a window, program, vertex array or buffer happens after the loop, in the order
vertex array, buffer, program, window, these handles having been acquired in
the order window, program, vertex array, buffer; so for two of these handles,
the one acquired earlier is released later, except for the vertex array and
the buffer, which are released in the order of their acquisition. -/
theorem C5_release_order (env : Env) (script : List (List Event)) (r : List Call × Ending)
    (hok : SetupOk env) (hmain : main env script = some r) :
    (∃ frames : List (List Call), r.1 = (mainSetup env).2 ++ frames.flatten ++ mainTeardown env (mainSetup env).1 ∧
      (releaseOrder ((mainSetup env).2 ++ frames.flatten)).filter tracked = []) ∧
    (acquisitions r.1).filter tracked
      = [(.window, env.window), (.program, env.shaderProgram),
         (.vertexArray, env.VAO), (.buffer, env.VBO)] ∧
    (releaseOrder r.1).filter tracked
      = [(.vertexArray, env.VAO), (.buffer, env.VBO),
         (.program, env.shaderProgram), (.window, env.window)] ∧
    ∀ a b : HandleKind,
      a ∈ ((acquisitions r.1).filter tracked).map Prod.fst →
      b ∈ ((acquisitions r.1).filter tracked).map Prod.fst →
      (a, b) ≠ (.vertexArray, .buffer) →
      List.indexOf a (((acquisitions r.1).filter tracked).map Prod.fst)
        < List.indexOf b (((acquisitions r.1).filter tracked).map Prod.fst) →
      List.indexOf b (((releaseOrder r.1).filter tracked).map Prod.fst)
        < List.indexOf a (((releaseOrder r.1).filter tracked).map Prod.fst) := by
  obtain ⟨hacq, hrel⟩ := main_acquisitions_releases env script r hok hmain
  have hA : (acquisitions r.1).filter tracked
      = [(.window, env.window), (.program, env.shaderProgram),
         (.vertexArray, env.VAO), (.buffer, env.VBO)] := by
    rw [hacq]; simp [List.filter, tracked]
  have hR : (releaseOrder r.1).filter tracked
      = [(.vertexArray, env.VAO), (.buffer, env.VBO),
         (.program, env.shaderProgram), (.window, env.window)] := by
    rw [hrel]; simp [List.filter, tracked]
  refine ⟨?_, hA, hR, ?_⟩
  · rw [main_of_loaded env script hok.1 hok.2.2.1] at hmain
    simp only [Option.map_eq_some'] at hmain
    obtain ⟨frames, hf, rfl⟩ := hmain
    refine ⟨frames, rfl, ?_⟩
    obtain ⟨pre, b, post, _, _, _, hframes⟩ := mainLoop_some _ _ _ _ _ hf
    have hr : frames.flatten.filterMap releases = [] := by
      apply filterMap_flatten_nil
      intro l hl
      rw [hframes] at hl
      obtain ⟨batch, _, rfl⟩ := List.mem_map.1 hl
      exact frame_releases _ _ _ _
    simp only [releaseOrder, List.filterMap_append, hr, mainSetup_of_ok env hok]
    simp [setupCalls, releases, List.filter, tracked]
  · rw [hA, hR]
    simp only [List.map_cons, List.map_nil]
    intro a b ha hb hne
    simp only [List.mem_cons, List.mem_singleton, List.not_mem_nil, or_false] at ha hb
    rcases ha with rfl | rfl | rfl | rfl <;> rcases hb with rfl | rfl | rfl | rfl <;>
      first
      | exact absurd rfl hne
      | decide

/-- C5 (amended), instance: the sample run. -/
theorem C5_release_order_witness :
    SetupOk envOk ∧
    (main envOk scriptEsc).isSome = true ∧
    ∀ r, main envOk scriptEsc = some r →
      (releaseOrder r.1).filter tracked
        = [(.vertexArray, 1), (.buffer, 1), (.program, 3), (.window, 1)] :=
  ⟨by decide, rfl, fun r hr => (C5_release_order envOk scriptEsc r (by decide) hr).2.2.1⟩

/-! ## Claims about setup order and error handling -/

/-- C6 (as stated, refuted): the successful setup of the sample environment
issues no `glDetachShader` call at all; the two shader objects are deleted
while still attached to the program. -/
theorem C6_no_detach_call :
    SetupOk envOk ∧
    (mainSetup envOk).2.filter isDetach = [] ∧
    (mainSetup envOk).2.filter (fun c => phase c = some .deleteShader)
      = [glDeleteShader 1, glDeleteShader 2] ∧
    (main envOk scriptEsc).map (fun r => r.1.filter isDetach) = some [] := by
  refine ⟨by decide, rfl, rfl, rfl⟩

/-- C6 (amended): on a run with successful setup the calls before the loop are
exactly `setupCalls`, so the setup steps are strictly ordered as: version and
profile attributes, window creation, context creation, viewport, culling enabled
with its mode and the winding order, compile of both shaders, link, deletion of
both shader objects (without any detach), vertex array create and bind, buffer
create and bind, upload, attribute description, attribute enable; the
description and the enable are the last two calls, and in the OpenGL state
reached before them the vertex array and the buffer of the setup are bound. -/
theorem C6_setup_order (env : Env) (hok : SetupOk env) :
    (mainSetup env).2 = setupCalls env ∧
    (mainSetup env).2.filterMap phase = setupPhases ∧
    ∃ pre, (mainSetup env).2
        = pre ++ [glVertexAttribPointer 0 3 GL_FLOAT false (3 * sizeofFloat) 0,
                  glEnableVertexAttribArray 0] ∧
      (glRun GLState.initial pre).vertexArray = env.VAO ∧
      (glRun GLState.initial pre).arrayBuffer = env.VBO := by
  have h : (mainSetup env).2 = setupCalls env := by rw [mainSetup_of_ok env hok]
  refine ⟨h, ?_, (setupCalls env).take 32, ?_, ?_, ?_⟩
  · rw [h]; rfl
  · rw [h]; rfl
  · rfl
  · rfl

/-- C6 (amended), instance: the sample environment. -/
theorem C6_setup_order_witness :
    SetupOk envOk ∧
    (mainSetup envOk).2.filterMap phase = setupPhases :=
  ⟨by decide, (C6_setup_order envOk (by decide)).2.1⟩

/-- The trace of `main` does not depend on whether the fragment shader
compiled. -/
theorem main_ignores_fragmentStatus (env : Env) (status : Int)
    (script : List (List Event)) :
    main { env with fragmentStatus := status } script = main env script := rfl

/-- C9: the uploaded array holds exactly 9 floats, 3 vertices of 3 components,
the z component of every vertex being 0; the upload passes 9 float sizes, the
layout is attribute 0, 3 float components, stride 3 float sizes, offset 0, and
the draw call asks for 3 vertices from index 0; so the uploaded size equals the
vertex count times the stride, and the bytes the draw reads are exactly the
bytes uploaded, none past the end. -/
theorem C9_vertex_data_layout (env : Env) :
    vertices.length = 9 ∧
    vertices.length = 3 * 3 ∧
    (∀ i, i < 3 → vertices.get? (3 * i + 2) = some 0) ∧
    geometrySetup env
      = [glGenVertexArrays 1 env.VAO,
         glBindVertexArray env.VAO,
         glGenBuffers 1 env.VBO,
         glBindBuffer GL_ARRAY_BUFFER env.VBO,
         glBufferData GL_ARRAY_BUFFER (9 * sizeofFloat) vertices GL_STATIC_DRAW,
         glVertexAttribPointer 0 3 GL_FLOAT false (3 * sizeofFloat) 0,
         glEnableVertexAttribArray 0] ∧
    (drawCode env.shaderProgram env.VAO).filter isDraw = [glDrawArrays GL_TRIANGLES 0 3] ∧
    9 * sizeofFloat = 3 * (3 * sizeofFloat) ∧
    drawBytes 3 (3 * sizeofFloat) 0 0 3 = List.range (9 * sizeofFloat) ∧
    (∀ b ∈ drawBytes 3 (3 * sizeofFloat) 0 0 3, b < sizeofVertices) := by
  refine ⟨rfl, rfl, ?_, rfl, rfl, rfl, rfl, ?_⟩
  · intro i hi
    interval_cases i <;> rfl
  · have h : drawBytes 3 (3 * sizeofFloat) 0 0 3 = List.range sizeofVertices := rfl
    intro b hb
    rw [h] at hb
    exact List.mem_range.1 hb

theorem glStep_cullState (s : GLState) (c : Call) (h : touchesCull c = false) :
    cullState (glStep s c) = cullState s := by
  unfold glStep
  split <;> simp_all [touchesCull, cullState]

theorem glRun_cullState (s : GLState) (t : List Call)
    (h : ∀ c ∈ t, touchesCull c = false) : cullState (glRun s t) = cullState s := by
  induction t generalizing s with
  | nil => rfl
  | cons c t ih =>
    have h1 : glRun s (c :: t) = glRun (glStep s c) t := rfl
    rw [h1, ih _ (fun d hd => h d (List.mem_cons_of_mem c hd)),
      glStep_cullState s c (h c (List.mem_cons_self c t))]

theorem shaderSetup_touchesCull (env : Env) :
    ∀ c ∈ shaderSetup env, touchesCull c = false := by
  intro c hc
  have h : (shaderSetup env).filter touchesCull = [] := by
    by_cases hv : env.vertexStatus = 0 <;> by_cases hl : env.linkStatus = 0 <;>
      simp [shaderSetup, hv, hl, List.filter, touchesCull]
  have h2 := List.filter_eq_nil_iff.1 h c hc
  simpa using h2

theorem geometrySetup_touchesCull (env : Env) :
    ∀ c ∈ geometrySetup env, touchesCull c = false := by
  intro c hc
  simp only [geometrySetup, List.mem_cons, List.mem_singleton, List.not_mem_nil,
    or_false] at hc
  rcases hc with h | h | h | h | h | h | h <;> subst h <;> rfl

theorem frame_touchesCull (g : Globals) (p vao : Nat) (batch : List Event) :
    ∀ c ∈ frame g p vao batch, touchesCull c = false := by
  intro c hc
  simp only [frame, pollLoop_trace, Render, drawCode, Update, List.mem_append,
    List.mem_cons, List.mem_map, List.mem_singleton, List.not_mem_nil, or_false] at hc
  rcases hc with (((h | h) | (⟨e, _, h⟩ | h)) | (h | h | h)) | h <;> subst h <;> rfl

theorem fixedFunctionSetup_cullState (s : GLState) :
    cullState (glRun s fixedFunctionSetup) = (true, GL_BACK, GL_CCW) := by
  simp [glRun, fixedFunctionSetup, glStep, cullState]

theorem stateAtDraw_cullState (env : Env) (earlier : List (List Event))
    (batch : List Event) :
    cullState (stateAtDraw env earlier batch) = (true, GL_BACK, GL_CCW) := by
  have e : (mainSetup env).2
      = (Init env ⟨0, 0⟩).2 ++ fixedFunctionSetup ++ shaderSetup env ++ geometrySetup env := rfl
  have hlast : ∀ c ∈ Render ++ (pollLoop batch true).1
      ++ [glUseProgram env.shaderProgram, glBindVertexArray env.VAO],
      touchesCull c = false := by
    intro c hc
    have hsub : c ∈ frame (mainSetup env).1 env.shaderProgram env.VAO batch := by
      rw [frame_split]
      exact List.mem_append_left _ hc
    exact frame_touchesCull _ _ _ _ c hsub
  have hflat : ∀ c ∈ (earlier.map
      (frame (mainSetup env).1 env.shaderProgram env.VAO)).flatten,
      touchesCull c = false := by
    intro c hc
    obtain ⟨l, hl, hcl⟩ := List.mem_flatten.1 hc
    obtain ⟨b, _, rfl⟩ := List.mem_map.1 hl
    exact frame_touchesCull _ _ _ _ c hcl
  unfold stateAtDraw
  rw [glRun_append, glRun_cullState _ _ hlast, glRun_append, glRun_cullState _ _ hflat, e,
    glRun_append, glRun_cullState _ _ (geometrySetup_touchesCull env),
    glRun_append, glRun_cullState _ _ (shaderSetup_touchesCull env),
    glRun_append, fixedFunctionSetup_cullState]

/-- C10: the three vertices, in the order stored and drawn, are (-1/2,-1/2),
(1/2,-1/2), (0,1/2); their signed area is strictly positive, in normalised
device coordinates and in window coordinates, so they wind counter-clockwise;
in the state in which any frame's draw call executes, culling is enabled, back
faces are culled and the front face is counter-clockwise, so the triangle is
front facing and is not culled. -/
theorem C10_triangle_not_culled (env : Env) (earlier : List (List Event))
    (batch : List Event) :
    triangle = ((-1/2, -1/2), (1/2, -1/2), (0, 1/2)) ∧
    0 < signedArea2 triangle.1 triangle.2.1 triangle.2.2 ∧
    0 < windowArea2 ∧
    (stateAtDraw env earlier batch).cullFace = true ∧
    (stateAtDraw env earlier batch).cullFaceMode = GL_BACK ∧
    (stateAtDraw env earlier batch).frontFace = GL_CCW ∧
    frontFacing (stateAtDraw env earlier batch) windowArea2 = true ∧
    culled (stateAtDraw env earlier batch) windowArea2 = false := by
  have ht : triangle = ((-1/2, -1/2), (1/2, -1/2), (0, 1/2)) := by
    simp [triangle, vertexXY, vertices]
  have ha : signedArea2 triangle.1 triangle.2.1 triangle.2.2 = 1 := by
    rw [ht]; simp only [signedArea2]; norm_num
  have hw : windowArea2 = 120000 := by
    simp only [windowArea2, ht, signedArea2, toWindow, WIDTH, HEIGHT]; norm_num
  have hs := stateAtDraw_cullState env earlier batch
  simp only [cullState, Prod.mk.injEq] at hs
  obtain ⟨h1, h2, h3⟩ := hs
  refine ⟨ht, by rw [ha]; norm_num, by rw [hw]; norm_num, h1, h2, h3, ?_, ?_⟩
  · simp [frontFacing, h3, hw]
  · simp [culled, frontFacing, h1, h2, h3, hw]

end HelloTriangle
